import Mathlib

/-!
# PerkinElmer detector plugin: `SyncCtrlObj` and `Interface`

A shallow embedding of `src/PerkinElmerSyncCtrlObj.cpp` and
`src/PerkinElmerInterface.cpp`.

Conventions of the embedding.

* A C++ object is a structure of its fields; a method is a function from the
  object (and the arguments) to a `Ret`: the exception thrown (if any), the
  object as it is when the method is left, and the calls issued to the outside
  world (vendor SDK, allocator, buffer manager), in order.
* What the outside world answers to a call is an argument of the method: the
  vendor return code, the pointer handed out by the allocator, the boolean of
  the buffer manager.  Nothing is assumed about these answers.
* A finite `double` is the rational it denotes.  The two products of
  `_setExpTime` (`exp_time * 1e6` and `expTime * 1e-6`) are rounded to binary64
  by `roundDouble` (to nearest, ties to even, subnormal range included); the
  literal `1e-6` is `double_1e_6`, the double nearest to `10 ^ (-6)`, and `1e6`
  is exactly `1000000`.  The subtraction inside the validity test of
  `_setExpTime` is exact.  Infinities and NaN are not modelled.
* `DWORD` is a natural number below `2 ^ 32`.  The conversion `DWORD(x)` of a
  `double` has a value only for `-1 < x < 2 ^ 32`; elsewhere C++ leaves it
  undefined and the model ends the call with `HwError.undefinedConversion`.
* `int` is a 32-bit two's complement integer: the increment of the frame
  counter wraps (`int32`), as the compiled code does.
* Pointers are addresses, `NULL` is address `0`.
-/

namespace PerkinElmer

/-! ## Types of the framework and of the vendor SDK -/

/-- Raw address held in a pointer or in a vendor handle. -/
abbrev Ptr := Nat

/-- The null pointer. -/
def NULL : Ptr := 0

/-- Modelled from the spec: the `TrigMode` enum is declared in the framework
headers, which are not among the sources.  The three members the source names
are kept; `other` stands for every other value of the enum type (the spec:
"some enum values accepted by the surrounding framework's type are not
accepted here"). -/
inductive TrigMode where
  | IntTrig
  | ExtStartStop
  | ExtTrigReadout
  | other (code : Nat)
  deriving DecidableEq, Repr

/-- Modelled from the spec: the correction-mode enum of `Interface` is declared
in a header that is not among the sources.  The source names `No` and
`OffsetAndGain`; the spec lists `{None, OffsetOnly, OffsetAndGain}`. -/
inductive CorrMode where
  | No
  | OffsetOnly
  | OffsetAndGain
  deriving DecidableEq, Repr

/-- Return code of a vendor call: the source only ever compares it with
`HIS_ALL_OK`; every other code is a `failure`. -/
inductive HisReturn where
  | HIS_ALL_OK
  | failure (code : Nat)
  deriving DecidableEq, Repr

/-- The two frame-sync modes of the vendor SDK that the source pushes. -/
inductive FrameSyncMode where
  | HIS_SYNCMODE_INTERNAL_TIMER
  | HIS_SYNCMODE_EXTERNAL_TRIGGER
  deriving DecidableEq, Repr

/-- The sequence option of the vendor acquire call used by the source. -/
inductive SeqOption where
  | HIS_SEQ_CONTINUOUS
  deriving DecidableEq, Repr

/-- Modelled from the spec: the status values `getStatus` can set (the status
type is declared in the framework headers). -/
inductive Status where
  | Ready
  | Exposure
  deriving DecidableEq, Repr

/-- Modelled from the spec: the reset level of the framework (`reset(level)`);
the source ignores it. -/
inductive ResetLevel where
  | SoftReset
  | HardReset
  deriving DecidableEq, Repr

/-- The framework's `Size`: width and height. -/
structure Size where
  getWidth : Int
  getHeight : Int
  deriving DecidableEq, Repr

/-- The hardware errors thrown with `THROW_HW_ERROR(Error)`, one per throw
site of the two source files.  The last one is no throw site: it marks a call
that runs into a conversion C++ leaves undefined. -/
inductive HwError where
  | cannotSetTriggerMode (trig_mode : TrigMode)
  | cannotChangeExpositionTime
  | couldNotStartTheAcquisition
  | couldNotSetCallback
  | noCameraFound
  | cannotGetDetector
  | cannotGetChannelTypeAndNumber
  | cannotResetTheBinning
  | cannotResetRoi
  | cannotGetDetectorConfiguration
  | cannotSetTriggerModeToInternal
  | unableToRegisterDestinationBuffer
  | undefinedConversion
  deriving DecidableEq, Repr

/-- A call issued to the outside world by a method (the calls of the
constructors are not recorded). -/
inductive Call where
  | Acquisition_SetFrameSyncMode (trigMode : FrameSyncMode)
  | Acquisition_SetTimerSync (expTime : Nat)
  | Acquisition_Acquire_Image (dwFrames dwSkipFrms : Nat) (dwOpt : SeqOption)
      (offset_data gain_data pixel_data : Ptr)
  | Acquisition_DefineDestBuffers (buffer : Ptr) (nb_buffers : Int) (rows columns : Int)
  | Acquisition_Abort
  | aligned_malloc (width height : Int) (sizeofElement : Nat) (alignment : Nat)
  | aligned_free (p : Ptr)
  | getNbBuffers
  | getFrameBufferPtr (index : Nat)
  | getDetectorImageSize
  | setStartTimestamp
  | buffer_newFrameReady (acq_frame_nb : Int)
  deriving DecidableEq, Repr

/-- What a method leaves behind: the exception it threw (if any), the object
when the method is left, the outside calls it issued. -/
structure Ret (σ : Type) where
  thrown : Option HwError
  obj : σ
  calls : List Call

/-! ## Numeric conversions -/

/-- Rounding to the nearest integer, ties to the even one. -/
def roundHalfEven (q : ℚ) : ℤ :=
  if q - ⌊q⌋ < 1 / 2 then ⌊q⌋
  else if 1 / 2 < q - ⌊q⌋ then ⌊q⌋ + 1
  else if ⌊q⌋ % 2 = 0 then ⌊q⌋ else ⌊q⌋ + 1

/-- The exponent of the unit in the last place of binary64 at `x`: 52 below
the binade of `x`, and `-1074` in the subnormal range. -/
def ulpExponent (x : ℚ) : ℤ := max (Int.log 2 |x| - 52) (-1074)

/-- The binary64 result of an operation whose exact result is `x`: the
multiple of the unit in the last place nearest to `x`, ties to even.  (At
`2 ^ 1024` and above the hardware gives an infinity; no such value is used
here: the conversion of a product that large is undefined already.) -/
def roundDouble (x : ℚ) : ℚ :=
  (roundHalfEven (x / 2 ^ ulpExponent x) : ℚ) * 2 ^ ulpExponent x

/-- The literal `1e-6`: the double nearest to `10 ^ (-6)`. -/
def double_1e_6 : ℚ := roundDouble (1 / 1000000)

/-- The conversion `DWORD(x)` of a `double`: truncation toward zero, for
`-1 < x < 2 ^ 32`; undefined (`none`) elsewhere. -/
def DWORD (x : ℚ) : Option Nat :=
  if -1 < x ∧ x < 4294967296 then some (Int.tdiv x.num x.den).toNat else none

/-- The value of a 32-bit two's complement `int` after an operation whose
exact result is `x`. -/
def int32 (x : Int) : Int :=
  (x + 2147483648) % 4294967296 - 2147483648

/-- `MIN_EXPO_TIME = 33.2e-3`. -/
def MIN_EXPO_TIME : ℚ := roundDouble (332 / 10000)

/-! ## `SyncCtrlObj` -/

/-- The fields of `SyncCtrlObj` (the handle `m_acq_desc` is a reference to the
one of `Interface`; calls through it are recorded in `Ret.calls`). -/
structure SyncCtrlObj where
  m_trig_mode : TrigMode
  m_offset_data : Ptr
  m_gain_data : Ptr
  m_expo_time : ℚ
  m_acq_nb_frames : Int
  m_corr_expo_time : ℚ
  m_keep_first_image : Bool
  m_corr_mode : CorrMode
  deriving DecidableEq

namespace SyncCtrlObj

/-- `SyncCtrlObj::invalidateCorrectionImage`. -/
def invalidateCorrectionImage (s : SyncCtrlObj) : Ret SyncCtrlObj :=
  let c1 : List Call := if s.m_gain_data ≠ NULL then [Call.aligned_free s.m_gain_data] else []
  let s1 : SyncCtrlObj := if s.m_gain_data ≠ NULL then { s with m_gain_data := NULL } else s
  let c2 : List Call :=
    if s1.m_offset_data ≠ NULL then [Call.aligned_free s1.m_offset_data] else []
  let s2 : SyncCtrlObj :=
    if s1.m_offset_data ≠ NULL then { s1 with m_offset_data := NULL } else s1
  { thrown := none
    obj := { s2 with m_corr_mode := CorrMode.No, m_corr_expo_time := -1 }
    calls := c1 ++ c2 }

/-- The constructor `SyncCtrlObj::SyncCtrlObj`: the initialiser list, then
`invalidateCorrectionImage()`.  `m_corr_mode` is not in the initialiser list:
`uninit_corr_mode` is whatever the memory holds. -/
def construct (uninit_corr_mode : CorrMode) : SyncCtrlObj :=
  (invalidateCorrectionImage
    { m_trig_mode := TrigMode.IntTrig
      m_offset_data := NULL
      m_gain_data := NULL
      m_expo_time := -1
      m_acq_nb_frames := 1
      m_corr_expo_time := -1
      m_keep_first_image := false
      m_corr_mode := uninit_corr_mode }).obj

/-- `SyncCtrlObj::checkTrigMode`. -/
def checkTrigMode (trig_mode : TrigMode) : Bool :=
  match trig_mode with
  | TrigMode.IntTrig => true
  | TrigMode.ExtStartStop => true
  | TrigMode.ExtTrigReadout => true
  | _ => false

/-- `SyncCtrlObj::setTrigMode`; `ret` is what `Acquisition_SetFrameSyncMode`
returns. -/
def setTrigMode (s : SyncCtrlObj) (trig_mode : TrigMode) (ret : HisReturn) : Ret SyncCtrlObj :=
  let trigMode : FrameSyncMode :=
    match trig_mode with
    | TrigMode.ExtTrigReadout => FrameSyncMode.HIS_SYNCMODE_EXTERNAL_TRIGGER
    | TrigMode.ExtStartStop => FrameSyncMode.HIS_SYNCMODE_EXTERNAL_TRIGGER
    | _ => FrameSyncMode.HIS_SYNCMODE_INTERNAL_TIMER
  if ret ≠ HisReturn.HIS_ALL_OK then
    { thrown := some (HwError.cannotSetTriggerMode trig_mode)
      obj := s
      calls := [Call.Acquisition_SetFrameSyncMode trigMode] }
  else
    { thrown := none
      obj := { s with m_trig_mode := trig_mode }
      calls := [Call.Acquisition_SetFrameSyncMode trigMode] }

/-- `SyncCtrlObj::getTrigMode`. -/
def getTrigMode (s : SyncCtrlObj) : TrigMode := s.m_trig_mode

/-- `SyncCtrlObj::_setExpTime`.  `vendor` is `Acquisition_SetTimerSync` seen
as a function of the count passed in `expTime`: it answers a return code and
the count it leaves in `expTime` (an in/out `DWORD`). -/
def _setExpTime (s : SyncCtrlObj) (exp_time : ℚ) (send_to_hard : Bool)
    (vendor : Nat → HisReturn × Nat) : Ret SyncCtrlObj :=
  let finish (s1 : SyncCtrlObj) (calls : List Call) : Ret SyncCtrlObj :=
    if |s1.m_expo_time - s1.m_corr_expo_time| > double_1e_6 then
      let r := invalidateCorrectionImage s1
      { thrown := none, obj := r.obj, calls := calls ++ r.calls }
    else
      { thrown := none, obj := s1, calls := calls }
  if s.m_trig_mode = TrigMode.IntTrig ∧ send_to_hard = true then
    match DWORD (roundDouble (exp_time * 1000000)) with
    | none => { thrown := some HwError.undefinedConversion, obj := s, calls := [] }
    | some expTime =>
      let answer := vendor expTime
      if answer.1 ≠ HisReturn.HIS_ALL_OK then
        { thrown := some HwError.cannotChangeExpositionTime
          obj := s
          calls := [Call.Acquisition_SetTimerSync expTime] }
      else
        let expTime1 : Nat := answer.2 % 4294967296
        finish { s with m_expo_time := roundDouble ((expTime1 : ℚ) * double_1e_6) }
          [Call.Acquisition_SetTimerSync expTime]
  else
    finish { s with m_expo_time := exp_time } []

/-- `SyncCtrlObj::setExpTime`. -/
def setExpTime (s : SyncCtrlObj) (exp_time : ℚ) (vendor : Nat → HisReturn × Nat) :
    Ret SyncCtrlObj :=
  _setExpTime s exp_time (!s.m_keep_first_image) vendor

/-- `SyncCtrlObj::_setExpTimeToMin`; the return code of the vendor call is
ignored by the source. -/
def _setExpTimeToMin (s : SyncCtrlObj) : Ret SyncCtrlObj :=
  if s.m_trig_mode = TrigMode.IntTrig ∧ s.m_keep_first_image = true then
    match DWORD (roundDouble (MIN_EXPO_TIME * 1000000)) with
    | none => { thrown := some HwError.undefinedConversion, obj := s, calls := [] }
    | some expTime =>
      { thrown := none, obj := s, calls := [Call.Acquisition_SetTimerSync expTime] }
  else
    { thrown := none, obj := s, calls := [] }

/-- `SyncCtrlObj::getExpTime`. -/
def getExpTime (s : SyncCtrlObj) : ℚ := s.m_expo_time

/-- `SyncCtrlObj::setNbHwFrames`. -/
def setNbHwFrames (s : SyncCtrlObj) (nb_frames : Int) : SyncCtrlObj :=
  { s with m_acq_nb_frames := nb_frames }

/-- `SyncCtrlObj::getNbHwFrames`. -/
def getNbHwFrames (s : SyncCtrlObj) : Int := s.m_acq_nb_frames

/-- `SyncCtrlObj::startAcq`; `ret` is what `Acquisition_Acquire_Image`
returns. -/
def startAcq (s : SyncCtrlObj) (ret : HisReturn) : Ret SyncCtrlObj :=
  let offset_data : Ptr := if s.m_corr_mode ≠ CorrMode.No then s.m_offset_data else NULL
  let gain_data : Ptr := if s.m_corr_mode = CorrMode.OffsetAndGain then s.m_gain_data else NULL
  let call := Call.Acquisition_Acquire_Image 2 0 SeqOption.HIS_SEQ_CONTINUOUS
    offset_data gain_data NULL
  if ret ≠ HisReturn.HIS_ALL_OK then
    { thrown := some HwError.couldNotStartTheAcquisition, obj := s, calls := [call] }
  else
    { thrown := none, obj := s, calls := [call] }

/-- `SyncCtrlObj::reallocOffset`; `p` is the pointer `_aligned_malloc` hands
out (`NULL` when the allocation fails).  The allocation is recorded with the
operands of its size, `getWidth() * getHeight() * sizeof(unsigned short)`. -/
def reallocOffset (s : SyncCtrlObj) (aSize : Size) (p : Ptr) : Ret SyncCtrlObj :=
  let c1 : List Call := if s.m_gain_data ≠ NULL then [Call.aligned_free s.m_gain_data] else []
  let s1 : SyncCtrlObj := if s.m_gain_data ≠ NULL then { s with m_gain_data := NULL } else s
  let c2 : List Call :=
    if s1.m_offset_data ≠ NULL then [Call.aligned_free s1.m_offset_data] else []
  { thrown := none
    obj := { s1 with m_offset_data := p }
    calls := c1 ++ c2 ++ [Call.aligned_malloc aSize.getWidth aSize.getHeight 2 16] }

/-- `SyncCtrlObj::reallocGain`; `p` is the pointer `_aligned_malloc` hands
out (`NULL` when the allocation fails).  The allocation is recorded with the
operands of its size, `getWidth() * getHeight() * sizeof(DWORD)`. -/
def reallocGain (s : SyncCtrlObj) (aSize : Size) (p : Ptr) : Ret SyncCtrlObj :=
  let c1 : List Call := if s.m_gain_data ≠ NULL then [Call.aligned_free s.m_gain_data] else []
  { thrown := none
    obj := { s with m_gain_data := p }
    calls := c1 ++ [Call.aligned_malloc aSize.getWidth aSize.getHeight 4 16] }

end SyncCtrlObj

/-! ## `Interface` -/

/-- What `DetInfoCtrlObj` is constructed with (its source is not among the
files): the detector size read from the vendor configuration. -/
structure DetInfoCtrlObj where
  max_columns : Nat
  max_rows : Nat
  deriving DecidableEq, Repr

/-- The fields of `Interface`. -/
structure Interface where
  m_acq_desc : Ptr
  m_acq_started : Bool
  m_acq_frame_nb : Int
  m_det_info : DetInfoCtrlObj
  m_sync : SyncCtrlObj
  deriving DecidableEq

/-- The answers of the vendor SDK to the calls of the constructor, in the
order of the calls. -/
structure InitAnswers where
  /-- `Acquisition_EnumSensors`: the return code. -/
  enumSensors : HisReturn
  /-- `Acquisition_GetNextSensor`: the return code and the handle. -/
  getNextSensor : HisReturn × Ptr
  /-- `Acquisition_GetCommChannel`: the return code. -/
  getCommChannel : HisReturn
  /-- `Acquisition_SetCameraBinningMode`: the return code. -/
  setCameraBinningMode : HisReturn
  /-- `Acquisition_SetCameraROI`: the return code. -/
  setCameraROI : HisReturn
  /-- `Acquisition_GetConfiguration`: the return code, rows and columns. -/
  getConfiguration : HisReturn × Nat × Nat
  /-- `Acquisition_SetFrameSyncMode`: the return code. -/
  setFrameSyncMode : HisReturn
  /-- `Acquisition_SetCallbacksAndMessages`: the return code. -/
  setCallbacksAndMessages : HisReturn

namespace Interface

/-- `Interface::get_channel_type_n_id`, as far as control flow goes: `false`
iff the vendor call fails (the description string only feeds a log line). -/
def get_channel_type_n_id (ret : HisReturn) : Bool :=
  if ret ≠ HisReturn.HIS_ALL_OK then false else true

/-- `Interface::_InitDetector`: the handle and `(max_columns, max_rows)`, or
the error of the first vendor call that fails. -/
def _InitDetector (a : InitAnswers) : Except HwError (Ptr × Nat × Nat) :=
  if a.enumSensors ≠ HisReturn.HIS_ALL_OK then Except.error HwError.noCameraFound
  else if a.getNextSensor.1 ≠ HisReturn.HIS_ALL_OK then Except.error HwError.cannotGetDetector
  else if get_channel_type_n_id a.getCommChannel = false then
    Except.error HwError.cannotGetChannelTypeAndNumber
  else if a.setCameraBinningMode ≠ HisReturn.HIS_ALL_OK then
    Except.error HwError.cannotResetTheBinning
  else if a.setCameraROI ≠ HisReturn.HIS_ALL_OK then Except.error HwError.cannotResetRoi
  else if a.getConfiguration.1 ≠ HisReturn.HIS_ALL_OK then
    Except.error HwError.cannotGetDetectorConfiguration
  else if a.setFrameSyncMode ≠ HisReturn.HIS_ALL_OK then
    Except.error HwError.cannotSetTriggerModeToInternal
  else Except.ok (a.getNextSensor.2, a.getConfiguration.2.2, a.getConfiguration.2.1)

/-- The constructor `Interface::Interface`.  `m_acq_frame_nb` is not in the
initialiser list: `uninit_frame_nb` is whatever the memory holds (so is
`uninit_corr_mode` for the `SyncCtrlObj`).  A failure leaves no object. -/
def construct (a : InitAnswers) (uninit_frame_nb : Int) (uninit_corr_mode : CorrMode) :
    Except HwError Interface :=
  match _InitDetector a with
  | Except.error e => Except.error e
  | Except.ok (acq_desc, max_columns, max_rows) =>
    if a.setCallbacksAndMessages ≠ HisReturn.HIS_ALL_OK then
      Except.error HwError.couldNotSetCallback
    else
      Except.ok
        { m_acq_desc := acq_desc
          m_acq_started := false
          m_acq_frame_nb := uninit_frame_nb
          m_det_info := { max_columns := max_columns, max_rows := max_rows }
          m_sync := SyncCtrlObj.construct uninit_corr_mode }

/-- `Interface::reset`. -/
def reset (s : Interface) (_reset_level : ResetLevel) : Ret Interface :=
  { thrown := none, obj := { s with m_acq_started := false }, calls := [] }

/-- `Interface::prepareAcq`.  `nb_buffers` and `buffer0` are what the buffer
manager answers to `getNbBuffers` and `getFrameBufferPtr(0)`, `image_size`
what the detector-info object answers, `ret` what
`Acquisition_DefineDestBuffers` returns. -/
def prepareAcq (s : Interface) (nb_buffers : Int) (buffer0 : Ptr) (image_size : Size)
    (ret : HisReturn) : Ret Interface :=
  let calls : List Call :=
    [Call.getNbBuffers, Call.getDetectorImageSize, Call.getFrameBufferPtr 0,
     Call.Acquisition_DefineDestBuffers buffer0 nb_buffers
       image_size.getHeight image_size.getWidth]
  if ret ≠ HisReturn.HIS_ALL_OK then
    { thrown := some HwError.unableToRegisterDestinationBuffer, obj := s, calls := calls }
  else
    { thrown := none, obj := { s with m_acq_frame_nb := 0 }, calls := calls }

/-- `Interface::startAcq`; `ret` is what the vendor acquire call inside
`SyncCtrlObj::startAcq` returns. -/
def startAcq (s : Interface) (ret : HisReturn) : Ret Interface :=
  let s1 : Interface := { s with m_acq_started := true }
  let r := SyncCtrlObj.startAcq s1.m_sync ret
  { thrown := r.thrown
    obj := { s1 with m_sync := r.obj }
    calls := Call.setStartTimestamp :: r.calls }

/-- `Interface::stopAcq`. -/
def stopAcq (s : Interface) : Ret Interface :=
  { thrown := none, obj := s, calls := [Call.Acquisition_Abort] }

/-- `Interface::getStatus`. -/
def getStatus (s : Interface) : Status :=
  if s.m_acq_started = true then Status.Exposure else Status.Ready

/-- `Interface::getNbHwAcquiredFrames`. -/
def getNbHwAcquiredFrames (s : Interface) : Int := s.m_acq_frame_nb

/-- `Interface::newFrameReady`, the frame-ready callback; `continueAcq` is
what the buffer manager's `newFrameReady(frame_info)` returns. -/
def newFrameReady (s : Interface) (continueAcq : Bool) : Ret Interface :=
  let frame_info_acq_frame_nb : Int := s.m_acq_frame_nb
  let s1 : Interface := { s with m_acq_frame_nb := int32 (s.m_acq_frame_nb + 1) }
  if continueAcq = false then
    let r := stopAcq s1
    { thrown := r.thrown
      obj := r.obj
      calls := Call.buffer_newFrameReady frame_info_acq_frame_nb :: r.calls }
  else
    { thrown := none, obj := s1, calls := [Call.buffer_newFrameReady frame_info_acq_frame_nb] }

/-- `Interface::SetEndAcquisition`, the acquisition-end callback. -/
def SetEndAcquisition (s : Interface) : Ret Interface :=
  { thrown := none, obj := { s with m_acq_started := false }, calls := [] }

/-- Consecutive invocations of the frame-ready callback, one per answer of
the buffer manager. -/
def frameCallbacks (s : Interface) : List Bool → Interface
  | [] => s
  | continueAcq :: rest => frameCallbacks (newFrameReady s continueAcq).obj rest

end Interface

/-! ## Sequences of calls on a `SyncCtrlObj` -/

/-- A call on a `SyncCtrlObj`, with the answers of the outside world. -/
inductive SyncCmd where
  | reallocOffset (aSize : Size) (p : Ptr)
  | reallocGain (aSize : Size) (p : Ptr)
  | invalidateCorrectionImage
  | setExpTime (exp_time : ℚ) (vendor : Nat → HisReturn × Nat)
  | setTrigMode (trig_mode : TrigMode) (ret : HisReturn)

/-- The object after one call (an exception leaves the object as it was when
thrown; the caller keeps using it). -/
def SyncCmd.exec (s : SyncCtrlObj) : SyncCmd → SyncCtrlObj
  | SyncCmd.reallocOffset aSize p => (SyncCtrlObj.reallocOffset s aSize p).obj
  | SyncCmd.reallocGain aSize p => (SyncCtrlObj.reallocGain s aSize p).obj
  | SyncCmd.invalidateCorrectionImage => (SyncCtrlObj.invalidateCorrectionImage s).obj
  | SyncCmd.setExpTime exp_time vendor => (SyncCtrlObj.setExpTime s exp_time vendor).obj
  | SyncCmd.setTrigMode trig_mode ret => (SyncCtrlObj.setTrigMode s trig_mode ret).obj

/-- The object after a sequence of calls. -/
def SyncCmd.run (s : SyncCtrlObj) : List SyncCmd → SyncCtrlObj
  | [] => s
  | c :: rest => SyncCmd.run (SyncCmd.exec s c) rest

/-- A sequence of calls in which `reallocGain` is only called while an
offset buffer is held. -/
def SyncCmd.gainAfterOffset (s : SyncCtrlObj) : List SyncCmd → Prop
  | [] => True
  | SyncCmd.reallocGain aSize p :: rest =>
      s.m_offset_data ≠ NULL ∧
        SyncCmd.gainAfterOffset (SyncCmd.exec s (SyncCmd.reallocGain aSize p)) rest
  | c :: rest => SyncCmd.gainAfterOffset (SyncCmd.exec s c) rest

/-! ## Values used in examples -/

/-- A timer call that succeeds and leaves the count in `expTime` as passed. -/
def vendorEcho : Nat → HisReturn × Nat :=
  fun expTime => (HisReturn.HIS_ALL_OK, expTime)

/-- A timer call that succeeds and raises a count below the readout period of
the detector (33200 microseconds, the `MIN_EXPO_TIME` of the source) to that
period. -/
def vendorClamp : Nat → HisReturn × Nat :=
  fun expTime => (HisReturn.HIS_ALL_OK, if expTime < 33200 then 33200 else expTime)

/-- The double `0.062507` (`0x1.0007570c564f9p-4`). -/
def double_0_062507 : ℚ := 4504104030528761 / 72057594037927936

/-- The double `0.06250599999999999` (`0x1.00064a9cdc443p-4`). -/
def double_0_062506 : ℚ := 4504031972934723 / 72057594037927936

/-- The double `0.001` (`0x1.0624dd2f1a9fcp-10`). -/
def double_0_001 : ℚ := 1152921504606847 / 1152921504606846976

/-- The double `0.0332` (`0x1.0ff972474538fp-5`). -/
def double_0_0332 : ℚ := 4784624244118415 / 144115188075855872

/-- An interface right after a successful construction on a 1024 x 1024
detector (the counter, not initialised by the constructor, happens to hold
17). -/
def acquiring0 : Interface :=
  { m_acq_desc := 1
    m_acq_started := false
    m_acq_frame_nb := 17
    m_det_info := { max_columns := 1024, max_rows := 1024 }
    m_sync := SyncCtrlObj.construct CorrMode.No }

/-- An interface right after a successful construction whose counter, not
initialised by the constructor, happens to hold `INT_MAX`. -/
def atIntMax : Interface :=
  { m_acq_desc := 1
    m_acq_started := false
    m_acq_frame_nb := 2147483647
    m_det_info := { max_columns := 1024, max_rows := 1024 }
    m_sync := SyncCtrlObj.construct CorrMode.No }

/-- The invariant: the gain buffer is non-null only if the offset buffer is. -/
def gainImpliesOffset (s : SyncCtrlObj) : Prop :=
  s.m_gain_data ≠ NULL → s.m_offset_data ≠ NULL

/-- Vendor answers of a construction in which every call succeeds, on a
1024 x 1024 detector with handle 1. -/
def answersOK : InitAnswers :=
  { enumSensors := HisReturn.HIS_ALL_OK
    getNextSensor := (HisReturn.HIS_ALL_OK, 1)
    getCommChannel := HisReturn.HIS_ALL_OK
    setCameraBinningMode := HisReturn.HIS_ALL_OK
    setCameraROI := HisReturn.HIS_ALL_OK
    getConfiguration := (HisReturn.HIS_ALL_OK, 1024, 1024)
    setFrameSyncMode := HisReturn.HIS_ALL_OK
    setCallbacksAndMessages := HisReturn.HIS_ALL_OK }

/-- The answers of the buffer manager in a run of `n` frame-ready callbacks
of which the first `n - 1` signal continue and the last signals stop. -/
def lifecycleAnswers (n : Nat) : List Bool :=
  List.replicate (n - 1) true ++ [false]

/-- The answers of the buffer manager in a run of `n` frame-ready callbacks
that all signal continue. -/
def continueAnswers (n : Nat) : List Bool :=
  List.replicate n true

/-! ## Lemmas on the rounding and the conversions -/

theorem roundHalfEven_sub_le (q : ℚ) : |(roundHalfEven q : ℚ) - q| ≤ 1 / 2 := by
  have h1 : (⌊q⌋ : ℚ) ≤ q := Int.floor_le q
  have h2 : q < (⌊q⌋ : ℚ) + 1 := Int.lt_floor_add_one q
  unfold roundHalfEven
  rw [abs_le]
  split_ifs <;> push_cast <;> constructor <;> linarith

theorem roundHalfEven_eq (q : ℚ) (m : ℤ) (h : |q - m| < 1 / 2) : roundHalfEven q = m := by
  rw [abs_lt] at h
  have hle := roundHalfEven_sub_le q
  rw [abs_le] at hle
  have h3 : ((roundHalfEven q - m : ℤ) : ℚ) < 1 := by push_cast; linarith
  have h4 : (-1 : ℚ) < ((roundHalfEven q - m : ℤ) : ℚ) := by push_cast; linarith
  have h5 : roundHalfEven q - m < 1 := by exact_mod_cast h3
  have h6 : -1 < roundHalfEven q - m := by exact_mod_cast h4
  omega

theorem roundHalfEven_nonneg (q : ℚ) (h : 0 ≤ q) : 0 ≤ roundHalfEven q := by
  have h1 : 0 ≤ ⌊q⌋ := Int.floor_nonneg.mpr h
  unfold roundHalfEven
  split_ifs <;> omega

theorem ulp_pos (x : ℚ) : (0 : ℚ) < 2 ^ ulpExponent x := zpow_pos (by norm_num) _

theorem roundDouble_zero : roundDouble 0 = 0 := by
  unfold roundDouble
  have : roundHalfEven (0 / 2 ^ ulpExponent 0) = 0 := by
    apply roundHalfEven_eq
    norm_num
  rw [this]
  simp

theorem roundDouble_nonneg (x : ℚ) (h : 0 ≤ x) : 0 ≤ roundDouble x := by
  unfold roundDouble
  have h1 : 0 ≤ x / 2 ^ ulpExponent x := div_nonneg h (le_of_lt (ulp_pos x))
  have h2 : (0 : ℚ) ≤ (roundHalfEven (x / 2 ^ ulpExponent x) : ℚ) := by
    exact_mod_cast roundHalfEven_nonneg _ h1
  exact mul_nonneg h2 (le_of_lt (ulp_pos x))

theorem roundDouble_sub_le_ulp (x : ℚ) : |roundDouble x - x| ≤ 2 ^ ulpExponent x / 2 := by
  have hu := ulp_pos x
  have h := roundHalfEven_sub_le (x / 2 ^ ulpExponent x)
  have e : roundDouble x - x
      = ((roundHalfEven (x / 2 ^ ulpExponent x) : ℚ) - x / 2 ^ ulpExponent x)
          * 2 ^ ulpExponent x := by
    unfold roundDouble
    field_simp
  rw [e, abs_mul, abs_of_pos hu]
  calc |(roundHalfEven (x / 2 ^ ulpExponent x) : ℚ) - x / 2 ^ ulpExponent x| * 2 ^ ulpExponent x
      ≤ 1 / 2 * 2 ^ ulpExponent x := mul_le_mul_of_nonneg_right h (le_of_lt hu)
    _ = 2 ^ ulpExponent x / 2 := by ring

theorem ulp_le (x : ℚ) (hx0 : x ≠ 0) :
    (2 : ℚ) ^ ulpExponent x ≤ |x| / 2 ^ 52 + 1 / 2 ^ 1074 := by
  unfold ulpExponent
  rcases le_total (Int.log 2 |x| - 52) (-1074) with h | h
  · rw [max_eq_right h]
    have : (2 : ℚ) ^ (-1074 : ℤ) = 1 / 2 ^ 1074 := by
      rw [zpow_neg, one_div]
      norm_cast
    rw [this]
    have : 0 ≤ |x| / 2 ^ 52 := by positivity
    linarith
  · rw [max_eq_left h]
    have hx : 0 < |x| := abs_pos.mpr hx0
    have h1 : ((2 : ℕ) : ℚ) ^ Int.log 2 |x| ≤ |x| := Int.zpow_log_le_self (by norm_num) hx
    have h2 : (2 : ℚ) ^ (Int.log 2 |x| - 52) = (2 : ℚ) ^ Int.log 2 |x| / 2 ^ 52 := by
      rw [zpow_sub₀ (by norm_num)]
      norm_cast
    rw [h2]
    have h3 : (2 : ℚ) ^ Int.log 2 |x| / 2 ^ 52 ≤ |x| / 2 ^ 52 := by
      apply div_le_div_of_nonneg_right _ (by positivity)
      exact_mod_cast h1
    have : (0 : ℚ) ≤ 1 / 2 ^ 1074 := by positivity
    linarith

/-- The error of one rounding. -/
theorem roundDouble_sub_le (x : ℚ) : |roundDouble x - x| ≤ |x| / 2 ^ 53 + 1 / 2 ^ 1075 := by
  rcases eq_or_ne x 0 with h0 | h0
  · subst h0
    rw [roundDouble_zero]
    norm_num
  have h1 := roundDouble_sub_le_ulp x
  have h2 := ulp_le x h0
  have e : |x| / 2 ^ 53 + 1 / 2 ^ 1075 = (|x| / 2 ^ 52 + 1 / 2 ^ 1074) / 2 := by ring
  rw [e]
  linarith

/-- The value of a rounding, from the binade `e` of `x` and the integer `m`
nearest to `x` in units of `2 ^ (e - 52)`. -/
theorem roundDouble_eq (x : ℚ) (e m : ℤ) (hx : 0 < x) (h1 : (2 : ℚ) ^ e ≤ x)
    (h2 : x < (2 : ℚ) ^ (e + 1)) (he : -1022 ≤ e)
    (hm : |x / 2 ^ (e - 52) - m| < 1 / 2) : roundDouble x = m * 2 ^ (e - 52) := by
  have hlog : Int.log 2 |x| = e := by
    rw [abs_of_pos hx]
    have a : e ≤ Int.log 2 x := (Int.zpow_le_iff_le_log (by norm_num) hx).mp (by exact_mod_cast h1)
    have b : Int.log 2 x < e + 1 := (Int.lt_zpow_iff_log_lt (by norm_num) hx).mp (by exact_mod_cast h2)
    omega
  have hu : ulpExponent x = e - 52 := by
    unfold ulpExponent
    rw [hlog]
    exact max_eq_left (by omega)
  unfold roundDouble
  rw [hu, roundHalfEven_eq _ m hm]

theorem double_1e_6_eq : double_1e_6 = 4722366482869645 / 4722366482869645213696 := by
  unfold double_1e_6
  rw [roundDouble_eq (1 / 1000000) (-20) 4722366482869645 (by norm_num) (by norm_num)
    (by norm_num) (by norm_num) (by norm_num [abs_lt])]
  norm_num


theorem DWORD_of_nonneg (x : ℚ) (h0 : 0 ≤ x) (hmax : x < 4294967296) :
    DWORD x = some ⌊x⌋₊ := by
  unfold DWORD
  have hr : -1 < x ∧ x < 4294967296 := ⟨by linarith, hmax⟩
  rw [if_pos hr]
  have hnum : 0 ≤ x.num := Rat.num_nonneg.mpr h0
  have hden : (0 : Int) ≤ (x.den : Int) := Int.ofNat_nonneg _
  rw [Int.tdiv_eq_ediv hnum hden, ← Rat.floor_def, Int.floor_toNat]

theorem floor_lt_two_pow_32 (x : ℚ) (h0 : 0 ≤ x) (hmax : x < 4294967296) :
    ⌊x⌋₊ < 4294967296 := by
  have h1 : (⌊x⌋₊ : ℚ) ≤ x := Nat.floor_le h0
  have h2 : (⌊x⌋₊ : ℚ) < ((4294967296 : ℕ) : ℚ) := by
    push_cast
    exact lt_of_le_of_lt h1 hmax
  exact_mod_cast h2

theorem int32_of_mem (x : Int) (hlo : -2147483648 ≤ x) (hhi : x ≤ 2147483647) :
    int32 x = x := by
  unfold int32
  omega

theorem int32_int32_add (x y : Int) : int32 (int32 x + y) = int32 (x + y) := by
  unfold int32
  omega

/-! ## Lemmas on `SyncCtrlObj` -/

namespace SyncCtrlObj

theorem invalidateCorrectionImage_obj (s : SyncCtrlObj) :
    (invalidateCorrectionImage s).obj =
      { s with m_gain_data := NULL, m_offset_data := NULL,
               m_corr_mode := CorrMode.No, m_corr_expo_time := -1 } := by
  unfold invalidateCorrectionImage
  by_cases hg : s.m_gain_data = NULL <;> by_cases ho : s.m_offset_data = NULL <;>
    simp [hg, ho]

/-- What `_setExpTime` leaves when the hardware is involved, the conversion
is defined and the vendor call succeeds. -/
theorem _setExpTime_hard_ok (s : SyncCtrlObj) (t : ℚ) (vendor : Nat → HisReturn × Nat)
    (n : Nat) (hmode : s.m_trig_mode = TrigMode.IntTrig)
    (hn : DWORD (roundDouble (t * 1000000)) = some n)
    (hok : (vendor n).1 = HisReturn.HIS_ALL_OK) :
    (_setExpTime s t true vendor).thrown = none ∧
    (_setExpTime s t true vendor).obj.m_expo_time =
      roundDouble ((((vendor n).2 % 4294967296 : ℕ) : ℚ) * double_1e_6) ∧
    (_setExpTime s t true vendor).calls.head? = some (Call.Acquisition_SetTimerSync n) := by
  unfold _setExpTime
  simp only [hmode, hn, hok, and_self, if_true, ne_eq, not_true_eq_false, if_false]
  split <;> simp [invalidateCorrectionImage_obj]

/-- The two roundings of `_setExpTime` for a value in the range of the
conversion: the count pushed, and how far the value read back can be from the
value requested when the count comes back unchanged. -/
theorem roundTrip_bounds (t : ℚ) (h0 : 0 ≤ t) (hmax : t * 1000000 ≤ 4294967295) :
    DWORD (roundDouble (t * 1000000)) = some ⌊roundDouble (t * 1000000)⌋₊ ∧
    ⌊roundDouble (t * 1000000)⌋₊ < 4294967296 ∧
    t - roundDouble ((⌊roundDouble (t * 1000000)⌋₊ : ℚ) * double_1e_6)
      < 1 / 1000000 + 1 / 100000000000 ∧
    roundDouble ((⌊roundDouble (t * 1000000)⌋₊ : ℚ) * double_1e_6) - t
      < 1 / 100000000000 := by
  have hX0 : 0 ≤ t * 1000000 := by positivity
  have hx0 : 0 ≤ roundDouble (t * 1000000) := roundDouble_nonneg _ hX0
  have he : (1 : ℚ) / 2 ^ 1075 ≤ 1 / 10 ^ 30 := by norm_num
  have e1 := roundDouble_sub_le (t * 1000000)
  rw [abs_of_nonneg hX0, abs_le] at e1
  have hxmax : roundDouble (t * 1000000) < 4294967296 := by
    norm_num at e1 he ⊢
    linarith [e1.2]
  have hn0 : (0 : ℚ) ≤ (⌊roundDouble (t * 1000000)⌋₊ : ℚ) := Nat.cast_nonneg _
  have hfl : (⌊roundDouble (t * 1000000)⌋₊ : ℚ) ≤ roundDouble (t * 1000000) :=
    Nat.floor_le hx0
  have hfu : roundDouble (t * 1000000) < (⌊roundDouble (t * 1000000)⌋₊ : ℚ) + 1 :=
    Nat.lt_floor_add_one _
  have e2 := roundDouble_sub_le ((⌊roundDouble (t * 1000000)⌋₊ : ℚ) * double_1e_6)
  have hc0 : 0 ≤ double_1e_6 := by
    rw [double_1e_6_eq]
    norm_num
  rw [abs_of_nonneg (mul_nonneg hn0 hc0), abs_le, double_1e_6_eq] at e2
  rw [double_1e_6_eq]
  refine ⟨DWORD_of_nonneg _ hx0 hxmax, floor_lt_two_pow_32 _ hx0 hxmax, ?_, ?_⟩
  · norm_num at e1 e2 he ⊢
    linarith [e1.1, e1.2, e2.1, e2.2]
  · norm_num at e1 e2 he ⊢
    linarith [e1.1, e1.2, e2.1, e2.2]

end SyncCtrlObj

/-! ## C1: exposure time in internal mode -/

theorem construct_IntTrig (cm : CorrMode) :
    (SyncCtrlObj.construct cm).m_trig_mode = TrigMode.IntTrig := by
  simp [SyncCtrlObj.construct, SyncCtrlObj.invalidateCorrectionImage_obj]

theorem construct_keep_first_image (cm : CorrMode) :
    (SyncCtrlObj.construct cm).m_keep_first_image = false := by
  simp [SyncCtrlObj.construct, SyncCtrlObj.invalidateCorrectionImage_obj]

theorem setExpTime_eq (s : SyncCtrlObj) (t : ℚ) (vendor : Nat → HisReturn × Nat)
    (hkeep : s.m_keep_first_image = false) :
    s.setExpTime t vendor = s._setExpTime t true vendor := by
  unfold SyncCtrlObj.setExpTime
  rw [hkeep]
  rfl

/-- What `setExpTime` leaves in internal trigger mode with keep-first-image
disabled, when the conversion is defined and the vendor call succeeds. -/
theorem setExpTime_hard_ok (s : SyncCtrlObj) (t : ℚ) (vendor : Nat → HisReturn × Nat)
    (n : Nat) (hmode : s.m_trig_mode = TrigMode.IntTrig)
    (hkeep : s.m_keep_first_image = false)
    (hn : DWORD (roundDouble (t * 1000000)) = some n)
    (hok : (vendor n).1 = HisReturn.HIS_ALL_OK) :
    (s.setExpTime t vendor).thrown = none ∧
    (s.setExpTime t vendor).obj.getExpTime =
      roundDouble ((((vendor n).2 % 4294967296 : ℕ) : ℚ) * double_1e_6) ∧
    (s.setExpTime t vendor).obj.m_expo_time =
      roundDouble ((((vendor n).2 % 4294967296 : ℕ) : ℚ) * double_1e_6) ∧
    (s.setExpTime t vendor).calls.head? = some (Call.Acquisition_SetTimerSync n) := by
  have h := SyncCtrlObj._setExpTime_hard_ok s t vendor n hmode hn hok
  rw [setExpTime_eq s t vendor hkeep]
  exact ⟨h.1, h.2.1, h.2.1, h.2.2⟩

/-- The product `0.062507 * 1e6` in binary64 is `62506.99999999999`, whose
conversion is 62506. -/
theorem DWORD_double_0_062507 :
    DWORD (roundDouble (double_0_062507 * 1000000)) = some 62506 := by
  have h : roundDouble (double_0_062507 * 1000000) = 8590896664674303 / 137438953472 := by
    rw [roundDouble_eq (double_0_062507 * 1000000) 15 8590896664674303
      (by norm_num [double_0_062507]) (by norm_num [double_0_062507])
      (by norm_num [double_0_062507]) (by norm_num)
      (by norm_num [double_0_062507, abs_lt])]
    norm_num
  have hf : ⌊(8590896664674303 / 137438953472 : ℚ)⌋₊ = 62506 := by
    rw [Nat.floor_eq_iff (by norm_num)]
    constructor <;> norm_num
  rw [h, DWORD_of_nonneg _ (by norm_num) (by norm_num), hf]

/-- The product `62506 * 1e-6` in binary64 is `0.06250599999999999`. -/
theorem roundDouble_62506 :
    roundDouble ((62506 : ℚ) * double_1e_6) = double_0_062506 := by
  rw [double_1e_6_eq]
  rw [roundDouble_eq _ (-4) 4504031972934723 (by norm_num) (by norm_num) (by norm_num)
    (by norm_num) (by norm_num [abs_lt])]
  norm_num [double_0_062506]

/-- The product `0.001 * 1e6` in binary64 is `1000`. -/
theorem DWORD_double_0_001 :
    DWORD (roundDouble (double_0_001 * 1000000)) = some 1000 := by
  have h : roundDouble (double_0_001 * 1000000) = 1000 := by
    rw [roundDouble_eq (double_0_001 * 1000000) 9 8796093022208000
      (by norm_num [double_0_001]) (by norm_num [double_0_001])
      (by norm_num [double_0_001]) (by norm_num)
      (by norm_num [double_0_001, abs_lt])]
    norm_num
  have hf : ⌊(1000 : ℚ)⌋₊ = 1000 := by
    rw [Nat.floor_eq_iff (by norm_num)]
    constructor <;> norm_num
  rw [h, DWORD_of_nonneg _ (by norm_num) (by norm_num), hf]

/-- The product `33200 * 1e-6` in binary64 is `0.0332`. -/
theorem roundDouble_33200 :
    roundDouble ((33200 : ℚ) * double_1e_6) = double_0_0332 := by
  rw [double_1e_6_eq]
  rw [roundDouble_eq _ (-5) 4784624244118415 (by norm_num) (by norm_num) (by norm_num)
    (by norm_num) (by norm_num [abs_lt])]
  norm_num [double_0_0332]

/-- C1, as stated, fails.  On a freshly constructed object (internal trigger
mode, keep-first-image disabled) with a successful vendor call: (a) for the
double `t = 0.062507` and a vendor that leaves the count unchanged, the count
pushed is 62506 and `getExpTime()` returns `0.06250599999999999`, more than
1 microsecond below `t`; (b) for the double `t = 0.001` and a vendor that
raises the count to the readout period, `getExpTime()` returns `0.0332`. -/
theorem C1_counterexample :
    (SyncCtrlObj.construct CorrMode.No).m_trig_mode = TrigMode.IntTrig ∧
    (SyncCtrlObj.construct CorrMode.No).m_keep_first_image = false ∧
    ((SyncCtrlObj.construct CorrMode.No).setExpTime double_0_062507 vendorEcho).thrown
      = none ∧
    ((SyncCtrlObj.construct CorrMode.No).setExpTime double_0_062507 vendorEcho).calls.head?
      = some (Call.Acquisition_SetTimerSync 62506) ∧
    ((SyncCtrlObj.construct CorrMode.No).setExpTime double_0_062507 vendorEcho).obj.getExpTime
      = double_0_062506 ∧
    (1 : ℚ) / 1000000 < double_0_062507 - double_0_062506 ∧
    ((SyncCtrlObj.construct CorrMode.No).setExpTime double_0_001 vendorClamp).thrown = none ∧
    ((SyncCtrlObj.construct CorrMode.No).setExpTime double_0_001 vendorClamp).obj.getExpTime
      = double_0_0332 ∧
    (1 : ℚ) / 1000000 < double_0_0332 - double_0_001 := by
  have hmode := construct_IntTrig CorrMode.No
  have hkeep := construct_keep_first_image CorrMode.No
  have ha : (vendorEcho 62506).1 = HisReturn.HIS_ALL_OK := rfl
  have hb : (vendorClamp 1000).1 = HisReturn.HIS_ALL_OK := rfl
  have a := setExpTime_hard_ok (SyncCtrlObj.construct CorrMode.No)
    double_0_062507 vendorEcho 62506 hmode hkeep DWORD_double_0_062507 ha
  have b := setExpTime_hard_ok (SyncCtrlObj.construct CorrMode.No)
    double_0_001 vendorClamp 1000 hmode hkeep DWORD_double_0_001 hb
  refine ⟨hmode, hkeep, a.1, a.2.2.2, ?_, ?_, b.1, ?_, ?_⟩
  · have hv : (vendorEcho 62506).2 % 4294967296 = 62506 := by
      simp [vendorEcho]
    rw [a.2.1, hv]
    simp only [Nat.cast_ofNat]
    exact roundDouble_62506
  · norm_num [double_0_062507, double_0_062506]
  · have hv : (vendorClamp 1000).2 % 4294967296 = 33200 := by
      simp [vendorClamp]
    rw [b.2.1, hv]
    simp only [Nat.cast_ofNat]
    exact roundDouble_33200
  · norm_num [double_0_0332, double_0_001]

/-- C1, amended.  In internal trigger mode with keep-first-image disabled,
for `0 ≤ t` with `t * 1e6 ≤ 4294967295` (the conversion to `DWORD` is then
defined), when the vendor timer call succeeds: `setExpTime(t)` returns
normally, it pushes the count `n = DWORD(t * 1e6)` (product in binary64), and
`getExpTime()` returns the count the vendor left in `expTime` (a `DWORD`)
times `1e-6`, in binary64.  When moreover the vendor leaves the count `n`
unchanged, the value returned is less than `1e-6 + 1e-11` s below `t` and less
than `1e-11` s above `t`. -/
theorem C1_setExpTime_quantized (s : SyncCtrlObj) (t : ℚ) (vendor : Nat → HisReturn × Nat)
    (hmode : s.m_trig_mode = TrigMode.IntTrig)
    (hkeep : s.m_keep_first_image = false)
    (h0 : 0 ≤ t) (hmax : t * 1000000 ≤ 4294967295)
    (hok : ∀ n, DWORD (roundDouble (t * 1000000)) = some n →
      (vendor n).1 = HisReturn.HIS_ALL_OK) :
    ∃ n : Nat, DWORD (roundDouble (t * 1000000)) = some n ∧
      (s.setExpTime t vendor).thrown = none ∧
      (s.setExpTime t vendor).calls.head? = some (Call.Acquisition_SetTimerSync n) ∧
      (s.setExpTime t vendor).obj.getExpTime =
        roundDouble ((((vendor n).2 % 4294967296 : ℕ) : ℚ) * double_1e_6) ∧
      ((vendor n).2 = n →
        t - (s.setExpTime t vendor).obj.getExpTime < 1 / 1000000 + 1 / 100000000000 ∧
        (s.setExpTime t vendor).obj.getExpTime - t < 1 / 100000000000) := by
  obtain ⟨hn, hlt, hb1, hb2⟩ := SyncCtrlObj.roundTrip_bounds t h0 hmax
  have h := setExpTime_hard_ok s t vendor _ hmode hkeep hn (hok _ hn)
  refine ⟨_, hn, h.1, h.2.2.2, h.2.1, ?_⟩
  intro hecho
  rw [h.2.1, hecho, Nat.mod_eq_of_lt hlt]
  exact ⟨hb1, hb2⟩

/-- C1, amended, at the double `t = 0.062507` on a freshly constructed object
with a vendor that leaves the count unchanged. -/
theorem C1_setExpTime_quantized_witness :
    ((SyncCtrlObj.construct CorrMode.No).setExpTime double_0_062507 vendorEcho).thrown
      = none ∧
    double_0_062507 - ((SyncCtrlObj.construct CorrMode.No).setExpTime double_0_062507
      vendorEcho).obj.getExpTime < 1 / 1000000 + 1 / 100000000000 ∧
    ((SyncCtrlObj.construct CorrMode.No).setExpTime double_0_062507
      vendorEcho).obj.getExpTime - double_0_062507 < 1 / 100000000000 := by
  obtain ⟨n, _, h1, _, _, h4⟩ := C1_setExpTime_quantized (SyncCtrlObj.construct CorrMode.No)
    double_0_062507 vendorEcho (construct_IntTrig CorrMode.No)
    (construct_keep_first_image CorrMode.No)
    (by norm_num [double_0_062507]) (by norm_num [double_0_062507]) (fun _ _ => rfl)
  exact ⟨h1, h4 rfl⟩

/-! ## C2: trigger modes outside the supported three -/

/-- C2, as stated, fails: on a freshly constructed object (mode `IntTrig`),
`setTrigMode` with a mode that `checkTrigMode` rejects and a successful vendor
call throws nothing, pushes the internal-timer mode, and `getTrigMode()` then
returns the rejected mode, not the previous one. -/
theorem C2_counterexample :
    SyncCtrlObj.checkTrigMode (TrigMode.other 4) = false ∧
    (SyncCtrlObj.construct CorrMode.No).getTrigMode = TrigMode.IntTrig ∧
    ((SyncCtrlObj.construct CorrMode.No).setTrigMode (TrigMode.other 4)
      HisReturn.HIS_ALL_OK).thrown = none ∧
    ((SyncCtrlObj.construct CorrMode.No).setTrigMode (TrigMode.other 4)
      HisReturn.HIS_ALL_OK).obj.getTrigMode = TrigMode.other 4 := by
  simp [SyncCtrlObj.checkTrigMode, SyncCtrlObj.construct, SyncCtrlObj.setTrigMode,
    SyncCtrlObj.getTrigMode, SyncCtrlObj.invalidateCorrectionImage_obj]

/-- C2, amended.  For a trigger mode `m` that is none of `IntTrig`,
`ExtStartStop`, `ExtTrigReadout`: `checkTrigMode(m)` returns false;
`setTrigMode(m)` does not validate: it pushes the internal-timer mode to the
hardware, and when the vendor call succeeds it throws nothing and
`getTrigMode()` returns `m`; when the vendor call fails it throws the hardware
error and `getTrigMode()` returns the mode active before the call. -/
theorem C2_setTrigMode_unsupported (s : SyncCtrlObj) (m : TrigMode)
    (hm : m ≠ TrigMode.IntTrig ∧ m ≠ TrigMode.ExtStartStop ∧ m ≠ TrigMode.ExtTrigReadout) :
    SyncCtrlObj.checkTrigMode m = false ∧
    (∀ ret, (s.setTrigMode m ret).calls =
      [Call.Acquisition_SetFrameSyncMode FrameSyncMode.HIS_SYNCMODE_INTERNAL_TIMER]) ∧
    (s.setTrigMode m HisReturn.HIS_ALL_OK).thrown = none ∧
    (s.setTrigMode m HisReturn.HIS_ALL_OK).obj.getTrigMode = m ∧
    (∀ code, (s.setTrigMode m (HisReturn.failure code)).thrown
        = some (HwError.cannotSetTriggerMode m) ∧
      (s.setTrigMode m (HisReturn.failure code)).obj.getTrigMode = s.getTrigMode) := by
  obtain ⟨h1, h2, h3⟩ := hm
  cases m with
  | IntTrig => exact absurd rfl h1
  | ExtStartStop => exact absurd rfl h2
  | ExtTrigReadout => exact absurd rfl h3
  | other code =>
    refine ⟨rfl, ?_, rfl, rfl, ?_⟩
    · intro ret
      cases ret <;> rfl
    · intro c
      exact ⟨rfl, rfl⟩

/-- C2, amended, at the mode `other 4` on a freshly constructed object. -/
theorem C2_setTrigMode_unsupported_witness :
    SyncCtrlObj.checkTrigMode (TrigMode.other 4) = false ∧
    ((SyncCtrlObj.construct CorrMode.No).setTrigMode (TrigMode.other 4)
      (HisReturn.failure 1)).obj.getTrigMode = (SyncCtrlObj.construct CorrMode.No).getTrigMode :=
  have h := C2_setTrigMode_unsupported (SyncCtrlObj.construct CorrMode.No) (TrigMode.other 4)
    ⟨by decide, by decide, by decide⟩
  ⟨h.1, (h.2.2.2.2 1).2⟩

/-! ## C3: exposure change invalidates the correction buffers -/

theorem gainImpliesOffset_construct (cm : CorrMode) :
    gainImpliesOffset (SyncCtrlObj.construct cm) := by
  intro h
  simp [SyncCtrlObj.construct, SyncCtrlObj.invalidateCorrectionImage_obj] at h

/-- The object `setExpTime` leaves: the object as it was (a failure), or the
object with a new exposure time, or that one after
`invalidateCorrectionImage`. -/
theorem setExpTime_obj_cases (s : SyncCtrlObj) (t : ℚ) (vendor : Nat → HisReturn × Nat) :
    (s.setExpTime t vendor).obj = s ∨
    (∃ e, (s.setExpTime t vendor).obj = { s with m_expo_time := e }) ∨
    (∃ e, (s.setExpTime t vendor).obj
      = (SyncCtrlObj.invalidateCorrectionImage { s with m_expo_time := e }).obj) := by
  unfold SyncCtrlObj.setExpTime SyncCtrlObj._setExpTime
  cases hD : DWORD (roundDouble (t * 1000000)) <;> simp only [] <;> split_ifs
  all_goals first
    | (left; rfl)
    | (right; left; exact ⟨_, rfl⟩)
    | (right; right; exact ⟨_, rfl⟩)

theorem gainImpliesOffset_setExpTime (s : SyncCtrlObj) (t : ℚ)
    (vendor : Nat → HisReturn × Nat) (h : gainImpliesOffset s) :
    gainImpliesOffset (s.setExpTime t vendor).obj := by
  rcases setExpTime_obj_cases s t vendor with h1 | ⟨e, h1⟩ | ⟨e, h1⟩ <;> rw [h1]
  · exact h
  · exact h
  · intro hg
    simp [SyncCtrlObj.invalidateCorrectionImage_obj] at hg

theorem gainImpliesOffset_setTrigMode (s : SyncCtrlObj) (m : TrigMode) (ret : HisReturn)
    (h : gainImpliesOffset s) : gainImpliesOffset (s.setTrigMode m ret).obj := by
  unfold SyncCtrlObj.setTrigMode
  simp only []
  split
  · exact h
  · exact h

theorem gainImpliesOffset_reallocOffset (s : SyncCtrlObj) (aSize : Size) (p : Ptr) :
    gainImpliesOffset (s.reallocOffset aSize p).obj := by
  intro hg
  exfalso
  apply hg
  unfold SyncCtrlObj.reallocOffset
  by_cases h : s.m_gain_data = NULL <;> simp [h]

theorem gainImpliesOffset_run (s : SyncCtrlObj) (cmds : List SyncCmd)
    (hinv : gainImpliesOffset s) (hseq : SyncCmd.gainAfterOffset s cmds) :
    gainImpliesOffset (SyncCmd.run s cmds) := by
  induction cmds generalizing s with
  | nil => exact hinv
  | cons c rest ih =>
    cases c with
    | reallocOffset aSize p =>
      exact ih _ (gainImpliesOffset_reallocOffset s aSize p) hseq
    | reallocGain aSize p =>
      exact ih _ (fun _ => hseq.1) hseq.2
    | invalidateCorrectionImage =>
      refine ih _ ?_ hseq
      intro hg
      simp [SyncCmd.exec, SyncCtrlObj.invalidateCorrectionImage_obj] at hg
    | setExpTime t vendor =>
      exact ih _ (gainImpliesOffset_setExpTime s t vendor hinv) hseq
    | setTrigMode m ret =>
      exact ih _ (gainImpliesOffset_setTrigMode s m ret hinv) hseq

/-- C4, as stated, fails: `reallocGain` right after construction leaves a
gain buffer and no offset buffer. -/
theorem C4_counterexample :
    (SyncCmd.run (SyncCtrlObj.construct CorrMode.No)
      [SyncCmd.reallocGain { getWidth := 1024, getHeight := 1024 } 8192]).m_gain_data = 8192 ∧
    (SyncCmd.run (SyncCtrlObj.construct CorrMode.No)
      [SyncCmd.reallocGain { getWidth := 1024, getHeight := 1024 } 8192]).m_offset_data
      = NULL := by
  simp [SyncCmd.run, SyncCmd.exec, SyncCtrlObj.reallocGain, SyncCtrlObj.construct,
    SyncCtrlObj.invalidateCorrectionImage_obj]

/-- C4, amended.  In every state reached from construction by a sequence of
`reallocOffset`, `reallocGain`, `invalidateCorrectionImage`, `setExpTime` and
`setTrigMode` calls in which `reallocGain` is only called while an offset
buffer is held, the gain buffer is non-null only if the offset buffer is
non-null (whatever the allocator and the vendor answer). -/
theorem C4_gain_implies_offset (cm : CorrMode) (cmds : List SyncCmd)
    (hseq : SyncCmd.gainAfterOffset (SyncCtrlObj.construct cm) cmds) :
    (SyncCmd.run (SyncCtrlObj.construct cm) cmds).m_gain_data ≠ NULL →
      (SyncCmd.run (SyncCtrlObj.construct cm) cmds).m_offset_data ≠ NULL :=
  gainImpliesOffset_run _ cmds (gainImpliesOffset_construct cm) hseq

/-- C4, amended, on the sequence `reallocOffset`, `reallocGain`: both
buffers are held afterwards. -/
theorem C4_gain_implies_offset_witness :
    (SyncCmd.run (SyncCtrlObj.construct CorrMode.No)
      [SyncCmd.reallocOffset { getWidth := 1024, getHeight := 1024 } 4096,
       SyncCmd.reallocGain { getWidth := 1024, getHeight := 1024 } 8192]).m_gain_data ≠ NULL ∧
    (SyncCmd.run (SyncCtrlObj.construct CorrMode.No)
      [SyncCmd.reallocOffset { getWidth := 1024, getHeight := 1024 } 4096,
       SyncCmd.reallocGain { getWidth := 1024, getHeight := 1024 } 8192]).m_offset_data
      ≠ NULL := by
  have hg : (SyncCmd.run (SyncCtrlObj.construct CorrMode.No)
      [SyncCmd.reallocOffset { getWidth := 1024, getHeight := 1024 } 4096,
       SyncCmd.reallocGain { getWidth := 1024, getHeight := 1024 } 8192]).m_gain_data
      ≠ NULL := by
    simp [SyncCmd.run, SyncCmd.exec, SyncCtrlObj.reallocGain, SyncCtrlObj.reallocOffset,
      SyncCtrlObj.construct, SyncCtrlObj.invalidateCorrectionImage_obj, NULL]
  refine ⟨hg, C4_gain_implies_offset CorrMode.No _ ?_ hg⟩
  simp [SyncCmd.gainAfterOffset, SyncCmd.exec, SyncCtrlObj.reallocOffset,
    SyncCtrlObj.construct, SyncCtrlObj.invalidateCorrectionImage_obj, NULL]

/-! ## Lemmas on `Interface` -/

namespace Interface

theorem newFrameReady_obj (s : Interface) (continueAcq : Bool) :
    (newFrameReady s continueAcq).obj
      = { s with m_acq_frame_nb := int32 (s.m_acq_frame_nb + 1) } := by
  cases continueAcq <;> rfl

/-- The counter after a non-empty run of callbacks, overflow included. -/
theorem frameCallbacks_frame_nb_wrap (s : Interface) (answers : List Bool)
    (h : answers ≠ []) :
    (frameCallbacks s answers).m_acq_frame_nb
      = int32 (s.m_acq_frame_nb + answers.length) := by
  induction answers generalizing s with
  | nil => exact absurd rfl h
  | cons a rest ih =>
    by_cases hr : rest = []
    · subst hr
      simp [frameCallbacks, newFrameReady_obj]
    · rw [frameCallbacks, ih _ hr, newFrameReady_obj]
      simp only [List.length_cons]
      rw [int32_int32_add]
      congr 1
      push_cast
      ring

/-- The counter after a run of callbacks that does not overflow it. -/
theorem frameCallbacks_frame_nb (s : Interface) (answers : List Bool)
    (hlo : -2147483648 ≤ s.m_acq_frame_nb)
    (hhi : s.m_acq_frame_nb + answers.length ≤ 2147483647) :
    (frameCallbacks s answers).m_acq_frame_nb = s.m_acq_frame_nb + answers.length := by
  by_cases h : answers = []
  · subst h
    simp [frameCallbacks]
  · rw [frameCallbacks_frame_nb_wrap s answers h]
    exact int32_of_mem _ (by omega) hhi

theorem frameCallbacks_started (s : Interface) (answers : List Bool) :
    (frameCallbacks s answers).m_acq_started = s.m_acq_started := by
  induction answers generalizing s with
  | nil => rfl
  | cons a rest ih => rw [frameCallbacks, ih, newFrameReady_obj]

theorem getNbHwAcquiredFrames_eq (s : Interface) :
    s.getNbHwAcquiredFrames = s.m_acq_frame_nb := rfl

theorem SetEndAcquisition_frame_nb (s : Interface) :
    s.SetEndAcquisition.obj.getNbHwAcquiredFrames = s.m_acq_frame_nb := rfl

theorem lifecycle_start_frame_nb (s : Interface) (nb_buffers : Int) (buffer0 : Ptr)
    (image_size : Size) :
    ((s.prepareAcq nb_buffers buffer0 image_size HisReturn.HIS_ALL_OK).obj.startAcq
      HisReturn.HIS_ALL_OK).obj.m_acq_frame_nb = 0 := rfl

end Interface

theorem lifecycleAnswers_length (n : Nat) (hn : 0 < n) : (lifecycleAnswers n).length = n := by
  simp [lifecycleAnswers]
  omega

theorem lifecycleAnswers_ne_nil (n : Nat) : lifecycleAnswers n ≠ [] := by
  simp [lifecycleAnswers]

theorem continueAnswers_length (n : Nat) : (continueAnswers n).length = n :=
  List.length_replicate _ _

theorem continueAnswers_ne_nil (n : Nat) (hn : 0 < n) : continueAnswers n ≠ [] := by
  intro h
  have hl := continueAnswers_length n
  rw [h] at hl
  simp at hl
  omega

/-! ## C5: what `reset` and `prepareAcq` reset -/

/-- C5, as stated, fails.  After construction, `prepareAcq`, `startAcq` and
five frame-ready callbacks: `reset` leaves `getNbHwAcquiredFrames()` at 5, and
a successful `prepareAcq` leaves `getStatus()` at `Exposure`. -/
theorem C5_counterexample :
    (Interface.reset (Interface.frameCallbacks (Interface.startAcq
      (Interface.prepareAcq acquiring0 4 4096 { getWidth := 1024, getHeight := 1024 }
        HisReturn.HIS_ALL_OK).obj HisReturn.HIS_ALL_OK).obj [true, true, true, true, true])
      ResetLevel.SoftReset).obj.getNbHwAcquiredFrames = 5 ∧
    (Interface.prepareAcq (Interface.frameCallbacks (Interface.startAcq
      (Interface.prepareAcq acquiring0 4 4096 { getWidth := 1024, getHeight := 1024 }
        HisReturn.HIS_ALL_OK).obj HisReturn.HIS_ALL_OK).obj [true, true, true, true, true])
      4 4096 { getWidth := 1024, getHeight := 1024 } HisReturn.HIS_ALL_OK).thrown = none ∧
    (Interface.prepareAcq (Interface.frameCallbacks (Interface.startAcq
      (Interface.prepareAcq acquiring0 4 4096 { getWidth := 1024, getHeight := 1024 }
        HisReturn.HIS_ALL_OK).obj HisReturn.HIS_ALL_OK).obj [true, true, true, true, true])
      4 4096 { getWidth := 1024, getHeight := 1024 } HisReturn.HIS_ALL_OK).obj.getStatus
      = Status.Exposure := by
  refine ⟨?_, rfl, ?_⟩
  · have h := Interface.frameCallbacks_frame_nb (Interface.startAcq
      (Interface.prepareAcq acquiring0 4 4096 { getWidth := 1024, getHeight := 1024 }
        HisReturn.HIS_ALL_OK).obj HisReturn.HIS_ALL_OK).obj [true, true, true, true, true]
      (by decide) (by decide)
    simp only [Interface.reset, Interface.getNbHwAcquiredFrames, h]
    rfl
  · simp [Interface.getStatus, Interface.prepareAcq, Interface.frameCallbacks_started,
      Interface.startAcq]

/-- C5, amended.  From any state, `reset(level)` clears the
acquisition-active flag (`getStatus()` reports `Ready`) and leaves the
delivered-frame counter as it was; a successful `prepareAcq()` sets the
delivered-frame counter to 0 (`getNbHwAcquiredFrames()` returns 0) and leaves
the acquisition-active flag as it was. -/
theorem C5_reset_prepareAcq (s : Interface) (level : ResetLevel) (nb_buffers : Int)
    (buffer0 : Ptr) (image_size : Size) :
    (s.reset level).thrown = none ∧
    (s.reset level).obj.m_acq_started = false ∧
    (s.reset level).obj.getStatus = Status.Ready ∧
    (s.reset level).obj.getNbHwAcquiredFrames = s.getNbHwAcquiredFrames ∧
    (s.prepareAcq nb_buffers buffer0 image_size HisReturn.HIS_ALL_OK).thrown = none ∧
    (s.prepareAcq nb_buffers buffer0 image_size
      HisReturn.HIS_ALL_OK).obj.getNbHwAcquiredFrames = 0 ∧
    (s.prepareAcq nb_buffers buffer0 image_size HisReturn.HIS_ALL_OK).obj.m_acq_started
      = s.m_acq_started ∧
    (s.prepareAcq nb_buffers buffer0 image_size HisReturn.HIS_ALL_OK).obj.getStatus
      = s.getStatus :=
  ⟨rfl, rfl, rfl, rfl, rfl, rfl, rfl, rfl⟩

/-! ## C6, C7: the frame-ready callback -/

/-- C6, as stated, fails.  After a successful `prepareAcq` (counter 0),
`2 ^ 31` consecutive invocations of the frame-ready callback leave
`getNbHwAcquiredFrames()` at `-2147483648`, not at `2 ^ 31`.  And when the
counter holds `INT_MAX` (the constructor leaves it uninitialised), one
invocation takes it from 2147483647 to -2147483648, whatever the buffer
manager answers. -/
theorem C6_counterexample :
    (acquiring0.prepareAcq 4 4096 { getWidth := 1024, getHeight := 1024 }
      HisReturn.HIS_ALL_OK).obj.getNbHwAcquiredFrames = 0 ∧
    (continueAnswers 2147483648).length = 2147483648 ∧
    (Interface.frameCallbacks (acquiring0.prepareAcq 4 4096
      { getWidth := 1024, getHeight := 1024 } HisReturn.HIS_ALL_OK).obj
      (continueAnswers 2147483648)).getNbHwAcquiredFrames = -2147483648 ∧
    Interface.construct answersOK 2147483647 CorrMode.No = Except.ok atIntMax ∧
    atIntMax.getNbHwAcquiredFrames = 2147483647 ∧
    (atIntMax.newFrameReady true).obj.getNbHwAcquiredFrames = -2147483648 ∧
    (atIntMax.newFrameReady false).obj.getNbHwAcquiredFrames = -2147483648 := by
  have hlen := continueAnswers_length 2147483648
  have hne := continueAnswers_ne_nil 2147483648 (by norm_num)
  have h0 : (acquiring0.prepareAcq 4 4096 { getWidth := 1024, getHeight := 1024 }
      HisReturn.HIS_ALL_OK).obj.m_acq_frame_nb = 0 := rfl
  have h3 : (Interface.frameCallbacks (acquiring0.prepareAcq 4 4096
      { getWidth := 1024, getHeight := 1024 } HisReturn.HIS_ALL_OK).obj
      (continueAnswers 2147483648)).getNbHwAcquiredFrames = -2147483648 := by
    rw [Interface.getNbHwAcquiredFrames_eq, Interface.frameCallbacks_frame_nb_wrap _ _ hne,
      h0, hlen]
    norm_num [int32]
  exact ⟨rfl, hlen, h3, rfl, rfl, by decide, by decide⟩

/-- C6, amended.  As long as the 32-bit counter does not overflow (it ends at
most at `2 ^ 31 - 1`), `N` consecutive invocations of the frame-ready callback
(one per answer in `answers`) advance `getNbHwAcquiredFrames()` by exactly
`N`, whatever the buffer manager answers, and one invocation increments the
counter by one whether or not the buffer manager asks to stop. -/
theorem C6_newFrameReady_counts (s : Interface) (answers : List Bool)
    (hlo : -2147483648 ≤ s.getNbHwAcquiredFrames)
    (hhi : s.getNbHwAcquiredFrames + answers.length ≤ 2147483647) :
    (∀ continueAcq : Bool, s.getNbHwAcquiredFrames < 2147483647 →
      (s.newFrameReady continueAcq).obj.getNbHwAcquiredFrames
        = s.getNbHwAcquiredFrames + 1) ∧
    (Interface.frameCallbacks s answers).getNbHwAcquiredFrames
      = s.getNbHwAcquiredFrames + answers.length := by
  constructor
  · intro c hc
    rw [Interface.newFrameReady_obj]
    exact int32_of_mem _ (by unfold Interface.getNbHwAcquiredFrames at hlo; omega)
      (by unfold Interface.getNbHwAcquiredFrames at hc; omega)
  · exact Interface.frameCallbacks_frame_nb s answers hlo hhi

/-- C6, amended, on three callbacks (continue, stop, continue) from a counter
at 17. -/
theorem C6_newFrameReady_counts_witness :
    (Interface.frameCallbacks acquiring0 [true, false, true]).getNbHwAcquiredFrames = 20 :=
  (C6_newFrameReady_counts acquiring0 [true, false, true] (by decide) (by decide)).2

/-- C7.  One invocation of the frame-ready callback first forwards to the
buffer manager a frame descriptor carrying the delivered-frame count as it was
on entry, then issues the vendor abort exactly once if the buffer manager
answers false (stop) and not at all if it answers true (continue); `stopAcq`
itself is exactly one vendor abort. -/
theorem C7_newFrameReady_abort (s : Interface) (continueAcq : Bool) :
    (s.newFrameReady continueAcq).calls =
      (if continueAcq = true then [Call.buffer_newFrameReady s.getNbHwAcquiredFrames]
       else [Call.buffer_newFrameReady s.getNbHwAcquiredFrames, Call.Acquisition_Abort]) ∧
    (s.newFrameReady continueAcq).calls.count Call.Acquisition_Abort
      = (if continueAcq = true then 0 else 1) ∧
    (s.newFrameReady continueAcq).thrown = none ∧
    s.stopAcq.calls = [Call.Acquisition_Abort] := by
  cases continueAcq <;>
    simp [Interface.newFrameReady, Interface.stopAcq, Interface.getNbHwAcquiredFrames]

/-! ## C8: `SyncCtrlObj::startAcq` -/

/-- C8.  `startAcq` issues one vendor acquire call (2 frames, 0 skipped,
continuous) whose offset and gain pointers follow `m_corr_mode`: `No` gives
null and null, `OffsetOnly` the stored offset buffer and null,
`OffsetAndGain` the stored offset and gain buffers; it throws the hardware
error iff the vendor call does not return `HIS_ALL_OK`; the object is
unchanged in both cases. -/
theorem C8_startAcq_buffers (s : SyncCtrlObj) (ret : HisReturn) :
    (s.startAcq ret).calls =
      [match s.m_corr_mode with
       | CorrMode.No =>
           Call.Acquisition_Acquire_Image 2 0 SeqOption.HIS_SEQ_CONTINUOUS NULL NULL NULL
       | CorrMode.OffsetOnly =>
           Call.Acquisition_Acquire_Image 2 0 SeqOption.HIS_SEQ_CONTINUOUS
             s.m_offset_data NULL NULL
       | CorrMode.OffsetAndGain =>
           Call.Acquisition_Acquire_Image 2 0 SeqOption.HIS_SEQ_CONTINUOUS
             s.m_offset_data s.m_gain_data NULL] ∧
    ((s.startAcq ret).thrown = some HwError.couldNotStartTheAcquisition
      ↔ ret ≠ HisReturn.HIS_ALL_OK) ∧
    ((s.startAcq ret).thrown = none ↔ ret = HisReturn.HIS_ALL_OK) ∧
    (s.startAcq ret).obj = s := by
  unfold SyncCtrlObj.startAcq
  cases hm : s.m_corr_mode <;> cases ret <;> simp

/-! ## C9: supported trigger modes -/

/-- C9.  For `m` one of `IntTrig`, `ExtStartStop`, `ExtTrigReadout`:
`setTrigMode(m)` pushes to the hardware the internal-timer mode for `IntTrig`
and the external-trigger mode for the two others; when the vendor call
succeeds nothing is thrown and `getTrigMode()` returns `m`; when it fails the
hardware error is thrown and `getTrigMode()` returns the previous mode. -/
theorem C9_setTrigMode_supported (s : SyncCtrlObj) (m : TrigMode)
    (hm : m = TrigMode.IntTrig ∨ m = TrigMode.ExtStartStop ∨ m = TrigMode.ExtTrigReadout) :
    (s.setTrigMode m HisReturn.HIS_ALL_OK).thrown = none ∧
    (s.setTrigMode m HisReturn.HIS_ALL_OK).obj.getTrigMode = m ∧
    (∀ ret, (s.setTrigMode m ret).calls =
      [Call.Acquisition_SetFrameSyncMode
        (if m = TrigMode.IntTrig then FrameSyncMode.HIS_SYNCMODE_INTERNAL_TIMER
         else FrameSyncMode.HIS_SYNCMODE_EXTERNAL_TRIGGER)]) ∧
    (∀ code, (s.setTrigMode m (HisReturn.failure code)).thrown
        = some (HwError.cannotSetTriggerMode m) ∧
      (s.setTrigMode m (HisReturn.failure code)).obj.getTrigMode = s.getTrigMode) := by
  rcases hm with h | h | h <;> subst h <;>
    refine ⟨rfl, rfl, fun ret => ?_, fun code => ⟨rfl, rfl⟩⟩ <;>
    cases ret <;> rfl

/-- C9 at `ExtStartStop` on a freshly constructed object. -/
theorem C9_setTrigMode_supported_witness :
    ((SyncCtrlObj.construct CorrMode.No).setTrigMode TrigMode.ExtStartStop
      HisReturn.HIS_ALL_OK).obj.getTrigMode = TrigMode.ExtStartStop ∧
    ((SyncCtrlObj.construct CorrMode.No).setTrigMode TrigMode.ExtStartStop
      HisReturn.HIS_ALL_OK).calls =
      [Call.Acquisition_SetFrameSyncMode FrameSyncMode.HIS_SYNCMODE_EXTERNAL_TRIGGER] :=
  have h := C9_setTrigMode_supported (SyncCtrlObj.construct CorrMode.No) TrigMode.ExtStartStop
    (Or.inr (Or.inl rfl))
  ⟨h.2.1, h.2.2.1 HisReturn.HIS_ALL_OK⟩

/-! ## C10: status and the acquisition lifecycle -/

/-- C10, as stated, fails for `n = 2 ^ 31`: after a successful `prepareAcq`
and `startAcq` and `2 ^ 31` frame-ready callbacks (the last one signalling
stop), then the acquisition-end callback, `getNbHwAcquiredFrames()` is
`-2147483648`, not `n`. -/
theorem C10_counterexample :
    (lifecycleAnswers 2147483648).length = 2147483648 ∧
    (Interface.frameCallbacks ((acquiring0.prepareAcq 4 4096
      { getWidth := 1024, getHeight := 1024 } HisReturn.HIS_ALL_OK).obj.startAcq
        HisReturn.HIS_ALL_OK).obj
      (lifecycleAnswers 2147483648)).SetEndAcquisition.obj.getNbHwAcquiredFrames
      = -2147483648 := by
  have hlen := lifecycleAnswers_length 2147483648 (by norm_num)
  refine ⟨hlen, ?_⟩
  rw [Interface.SetEndAcquisition_frame_nb,
    Interface.frameCallbacks_frame_nb_wrap _ _ (lifecycleAnswers_ne_nil _),
    Interface.lifecycle_start_frame_nb, hlen]
  norm_num [int32]

/-- C10, amended.  `getStatus()` is `Exposure` exactly when the
acquisition-active flag is true and `Ready` otherwise.  When every vendor call
succeeds, the lifecycle construction, `prepareAcq`, `startAcq`, `n` frame-ready
callbacks with `1 ≤ n ≤ 2 ^ 31 - 1`, of which the first `n - 1` signal
continue and the last signals stop, then the acquisition-end callback, runs
without an exception; the status is `Exposure` after `startAcq` and after each
of the callbacks; at the end `getNbHwAcquiredFrames()` is `n` and
`getStatus()` is `Ready`. -/
theorem C10_lifecycle (a : InitAnswers) (uninit_frame_nb : Int) (uninit_corr_mode : CorrMode)
    (nb_buffers : Int) (buffer0 : Ptr) (image_size : Size) (n : Nat)
    (hinit : a.enumSensors = HisReturn.HIS_ALL_OK ∧ a.getNextSensor.1 = HisReturn.HIS_ALL_OK ∧
      a.getCommChannel = HisReturn.HIS_ALL_OK ∧
      a.setCameraBinningMode = HisReturn.HIS_ALL_OK ∧ a.setCameraROI = HisReturn.HIS_ALL_OK ∧
      a.getConfiguration.1 = HisReturn.HIS_ALL_OK ∧ a.setFrameSyncMode = HisReturn.HIS_ALL_OK ∧
      a.setCallbacksAndMessages = HisReturn.HIS_ALL_OK)
    (hn : 0 < n) (hmax : n ≤ 2147483647) :
    (∀ s : Interface, (s.getStatus = Status.Exposure ↔ s.m_acq_started = true) ∧
      (s.getStatus = Status.Ready ↔ s.m_acq_started = false)) ∧
    ∃ s0 s1 s2 : Interface,
      Interface.construct a uninit_frame_nb uninit_corr_mode = Except.ok s0 ∧
      (s0.prepareAcq nb_buffers buffer0 image_size HisReturn.HIS_ALL_OK).thrown = none ∧
      (s0.prepareAcq nb_buffers buffer0 image_size HisReturn.HIS_ALL_OK).obj = s1 ∧
      (s1.startAcq HisReturn.HIS_ALL_OK).thrown = none ∧
      (s1.startAcq HisReturn.HIS_ALL_OK).obj = s2 ∧
      (∀ j, j ≤ n →
        (Interface.frameCallbacks s2 ((lifecycleAnswers n).take j)).getStatus
          = Status.Exposure) ∧
      (lifecycleAnswers n).length = n ∧
      (Interface.frameCallbacks s2 (lifecycleAnswers n)).SetEndAcquisition.thrown = none ∧
      (Interface.frameCallbacks s2
        (lifecycleAnswers n)).SetEndAcquisition.obj.getNbHwAcquiredFrames = n ∧
      (Interface.frameCallbacks s2 (lifecycleAnswers n)).SetEndAcquisition.obj.getStatus
        = Status.Ready := by
  obtain ⟨h1, h2, h3, h4, h5, h6, h7, h8⟩ := hinit
  have hlen : (lifecycleAnswers n).length = n := lifecycleAnswers_length n hn
  constructor
  · intro s
    unfold Interface.getStatus
    cases s.m_acq_started <;> simp
  · refine ⟨{ m_acq_desc := a.getNextSensor.2
              m_acq_started := false
              m_acq_frame_nb := uninit_frame_nb
              m_det_info := { max_columns := a.getConfiguration.2.2
                              max_rows := a.getConfiguration.2.1 }
              m_sync := SyncCtrlObj.construct uninit_corr_mode },
      _, _, ?_, rfl, rfl, ?_, rfl, ?_, hlen, rfl, ?_, rfl⟩
    · simp only [Interface.construct, Interface._InitDetector, Interface.get_channel_type_n_id,
        h1, h2, h3, h4, h5, h6, h7, h8, ne_eq, not_true_eq_false, if_false]
      rfl
    · simp [Interface.startAcq, SyncCtrlObj.startAcq]
    · intro j _
      simp [Interface.getStatus, Interface.frameCallbacks_started, Interface.startAcq,
        SyncCtrlObj.startAcq]
    · rw [Interface.SetEndAcquisition_frame_nb, Interface.frameCallbacks_frame_nb _ _
        (by rw [Interface.lifecycle_start_frame_nb]; norm_num)
        (by rw [Interface.lifecycle_start_frame_nb, hlen]; omega),
        Interface.lifecycle_start_frame_nb, hlen]
      simp

/-- C10, amended, in the scenario of the spec: 4 buffers, 1024 x 1024
geometry, four callbacks signalling continue and a fifth signalling stop. -/
theorem C10_lifecycle_witness :
    Interface.construct answersOK 17 CorrMode.No = Except.ok acquiring0 ∧
    (Interface.frameCallbacks ((acquiring0.prepareAcq 4 4096
      { getWidth := 1024, getHeight := 1024 } HisReturn.HIS_ALL_OK).obj.startAcq
        HisReturn.HIS_ALL_OK).obj
      [true, true, true, true, false]).SetEndAcquisition.obj.getNbHwAcquiredFrames = 5 ∧
    (Interface.frameCallbacks ((acquiring0.prepareAcq 4 4096
      { getWidth := 1024, getHeight := 1024 } HisReturn.HIS_ALL_OK).obj.startAcq
        HisReturn.HIS_ALL_OK).obj
      [true, true, true, true, false]).SetEndAcquisition.obj.getStatus = Status.Ready ∧
    (Interface.frameCallbacks ((acquiring0.prepareAcq 4 4096
      { getWidth := 1024, getHeight := 1024 } HisReturn.HIS_ALL_OK).obj.startAcq
        HisReturn.HIS_ALL_OK).obj
      [true, true, true, true]).getStatus = Status.Exposure := by
  obtain ⟨_, s0, s1, s2, h0, _, hp, _, hs, hexp, _, _, hnb, hst⟩ :=
    C10_lifecycle answersOK 17 CorrMode.No 4 4096 { getWidth := 1024, getHeight := 1024 } 5
      ⟨rfl, rfl, rfl, rfl, rfl, rfl, rfl, rfl⟩ (by decide) (by decide)
  have hc : Interface.construct answersOK 17 CorrMode.No = Except.ok acquiring0 := rfl
  have e0 : s0 = acquiring0 := by
    rw [hc] at h0
    exact (Except.ok.inj h0).symm
  subst e0
  subst hp
  subst hs
  exact ⟨hc, hnb, hst, hexp 4 (by decide)⟩

end PerkinElmer
